import Mathlib

/-!
Verification of the ingestion + query layer of the Olympics data visualizer
(`flask-api/app2.py`): a shallow embedding of the database state, the one-time
CSV ingestion (`create_db_from_csv`), and the read-only query endpoints, with
theorems about their filter, sort and matching semantics.
-/

namespace Olympics

/-- A row of the `athletes` table (the `Athletes` SQLAlchemy model):
columns Year, Country, Host, Athletes, Sports, Events, Gold, Silver, Bronze, Medals. -/
structure AthletesRow where
  Year : Int
  Country : String
  Host : Int
  Athletes : Int
  Sports : Int
  Events : Int
  Gold : Int
  Silver : Int
  Bronze : Int
  Medals : Int
deriving DecidableEq, Repr

/-- A row of the `host_country` table (the `HostCountry` model): Year, Country, City. -/
structure HostCountryRow where
  Year : Int
  Country : String
  City : String
deriving DecidableEq, Repr

/-- A row of the `summer_olympics_host` table (the `SummerOlympicsHost` model): Year, Host. -/
structure SummerOlympicsHostRow where
  Year : Int
  Host : String
deriving DecidableEq, Repr

/-- The contents of the three tables of the `olympics.db` store. -/
structure OlympicsDb where
  athletes : List AthletesRow
  host_country : List HostCountryRow
  summer_olympics_host : List SummerOlympicsHostRow
deriving DecidableEq, Repr

/-- The file-system state `create_db_from_csv` interacts with: whether
`olympics.db` exists and what it holds, and the parse result of each of the
three CSV source files (`none` models a missing or unreadable file, on which
`pd.read_csv` raises). -/
structure FsState where
  dbExists : Bool
  db : OlympicsDb
  host_country_csv : Option (List HostCountryRow)
  summer_olympics_host_csv : Option (List SummerOlympicsHostRow)
  summer_athlete_medals_csv : Option (List AthletesRow)
deriving DecidableEq, Repr

/-- `create_db_from_csv`: if `olympics.db` already exists, return immediately;
otherwise read the three CSV files (any failure aborts the whole operation with
an error) and write them to the three tables. -/
def create_db_from_csv (s : FsState) : Except String FsState :=
  if s.dbExists then Except.ok s
  else
    match s.host_country_csv, s.summer_olympics_host_csv, s.summer_athlete_medals_csv with
    | some hc, some soh, some ath =>
        Except.ok { s with
          dbExists := true,
          db := { host_country := hc, summer_olympics_host := soh, athletes := ath } }
    | _, _, _ => Except.error "Error creating database"

/-- ASCII lower-casing of a single character, as applied by SQLite's `lower()`
and its case-insensitive `LIKE` (both fold ASCII letters only). -/
def lowerChar (c : Char) : Char :=
  if 'A' ≤ c ∧ c ≤ 'Z' then Char.ofNat (c.toNat + 32) else c

/-- SQLite `LIKE` pattern matching, ASCII case-insensitive: `%` matches any
(possibly empty) sequence (the rest of the pattern must match some suffix of
the string), `_` matches any single character, every other pattern character
matches itself up to ASCII case. -/
def likeMatch : List Char → List Char → Bool
  | [], s => s.isEmpty
  | p :: ps, s =>
    if p = '%' then s.tails.any (fun t => likeMatch ps t)
    else
      match s with
      | [] => false
      | c :: s' =>
        if p = '_' then likeMatch ps s'
        else (lowerChar p == lowerChar c) && likeMatch ps s'

/-- The filter `Athletes.Country.ilike(f'%{name}%')`: the column value matched
against the `LIKE` pattern `%name%`. -/
def countryILike (name : String) (country : String) : Bool :=
  likeMatch ('%' :: name.data ++ ['%']) country.data

/-- Case-sensitive "starts with" on character lists (for relating `LIKE` to
substring occurrence). -/
def startsWith : List Char → List Char → Bool
  | [], _ => true
  | _ :: _, [] => false
  | a :: as, b :: bs => (a == b) && startsWith as bs

/-- `containsSub needle hay`: `needle` occurs as a contiguous substring of `hay`. -/
def containsSub : List Char → List Char → Bool
  | n, [] => startsWith n []
  | n, h :: hs => startsWith n (h :: hs) || containsSub n hs

/-- A filter string is wildcard-free when it contains neither of the `LIKE`
metacharacters `%` and `_`. -/
def wildcardFree (f : String) : Prop :=
  ∀ c ∈ f.data, c ≠ '%' ∧ c ≠ '_'

instance (f : String) : Decidable (wildcardFree f) :=
  inferInstanceAs (Decidable (∀ c ∈ f.data, c ≠ '%' ∧ c ≠ '_'))

/-- The ORDER BY key of `entire_data_dump`: `Athletes.Year, Athletes.Country`
(Year ascending, ties by Country ascending). -/
def dumpLe (a b : AthletesRow) : Prop :=
  a.Year < b.Year ∨ (a.Year = b.Year ∧ a.Country ≤ b.Country)

instance : DecidableRel dumpLe := fun a b =>
  inferInstanceAs (Decidable (a.Year < b.Year ∨ (a.Year = b.Year ∧ a.Country ≤ b.Country)))

/-- The ORDER BY key of `total_medal_tally`: `desc(Athletes.Medals)`. -/
def tallyLe (a b : AthletesRow) : Prop :=
  b.Medals ≤ a.Medals

instance : DecidableRel tallyLe := fun a b =>
  inferInstanceAs (Decidable (b.Medals ≤ a.Medals))

/-- The ORDER BY key of `host_countries` and `country_medals`: `Athletes.Year`. -/
def yearLe (a b : AthletesRow) : Prop :=
  a.Year ≤ b.Year

instance : DecidableRel yearLe := fun a b =>
  inferInstanceAs (Decidable (a.Year ≤ b.Year))

/-- The ORDER BY key of `total_medal_tally_year_after_1960` (and `total_medals`):
`Athletes.Year, desc(Athletes.Medals)`. -/
def yearMedalsLe (a b : AthletesRow) : Prop :=
  a.Year < b.Year ∨ (a.Year = b.Year ∧ b.Medals ≤ a.Medals)

instance : DecidableRel yearMedalsLe := fun a b =>
  inferInstanceAs (Decidable (a.Year < b.Year ∨ (a.Year = b.Year ∧ b.Medals ≤ a.Medals)))

/-- A JSON scalar value appearing in a response record. -/
inductive JVal where
  | jint : Int → JVal
  | jstr : String → JVal
deriving DecidableEq, Repr

/-- The base query of `entire_data_dump`: `filter(Athletes.Medals > 0)`. -/
def dumpBase (db : OlympicsDb) : List AthletesRow :=
  db.athletes.filter (fun r => 0 < r.Medals)

/-- The base query of `entire_data_dump` after the conditional
`Country.ilike(f'%{country_name}%')` filter (applied only when a
country name was supplied). -/
def dumpFiltered (db : OlympicsDb) (country_name : Option String) :
    List AthletesRow :=
  match country_name with
  | none => dumpBase db
  | some f => (dumpBase db).filter (fun r => countryILike f r.Country)

/-- The rows produced by the `/api/all-medal-winners[/<country_name>]` query
(`entire_data_dump`): filter `Medals > 0`, then the optional
`Country.ilike('%name%')` filter, ordered by Year then Country. -/
def entire_data_dump_rows (db : OlympicsDb) (country_name : Option String) :
    List AthletesRow :=
  List.insertionSort dumpLe (dumpFiltered db country_name)

/-- The dictionary built for each row of `entire_data_dump`. -/
def dumpRecord (r : AthletesRow) : List (String × JVal) :=
  [("year", JVal.jint r.Year), ("country", JVal.jstr r.Country),
   ("athletes", JVal.jint r.Athletes), ("sports", JVal.jint r.Sports),
   ("events", JVal.jint r.Events), ("gold", JVal.jint r.Gold),
   ("silver", JVal.jint r.Silver), ("bronze", JVal.jint r.Bronze),
   ("medals", JVal.jint r.Medals)]

/-- The JSON array returned by `entire_data_dump`. -/
def entire_data_dump (db : OlympicsDb) (country_name : Option String) :
    List (List (String × JVal)) :=
  (entire_data_dump_rows db country_name).map dumpRecord

/-- The rows produced by the `/api/medals-tally/<int:selected_year>` query
(`total_medal_tally`): filter `Year == selected_year`, ordered by Medals
descending. -/
def total_medal_tally_rows (db : OlympicsDb) (selected_year : Int) :
    List AthletesRow :=
  List.insertionSort tallyLe (db.athletes.filter (fun r => r.Year == selected_year))

/-- The dictionary built for each row of `total_medal_tally`. -/
def tallyRecord (r : AthletesRow) : List (String × JVal) :=
  [("year", JVal.jint r.Year), ("country", JVal.jstr r.Country),
   ("gold", JVal.jint r.Gold), ("silver", JVal.jint r.Silver),
   ("bronze", JVal.jint r.Bronze), ("total_medals", JVal.jint r.Medals)]

/-- The JSON array returned by `total_medal_tally`. -/
def total_medal_tally (db : OlympicsDb) (selected_year : Int) :
    List (List (String × JVal)) :=
  (total_medal_tally_rows db selected_year).map tallyRecord

/-- The rows produced by the `/api/host-countries` query (`host_countries`):
filter `Host == 1`, ordered by Year. -/
def host_countries_rows (db : OlympicsDb) : List AthletesRow :=
  List.insertionSort yearLe (db.athletes.filter (fun r => r.Host == 1))

/-- The JSON array returned by `host_countries`. -/
def host_countries (db : OlympicsDb) : List (List (String × JVal)) :=
  (host_countries_rows db).map tallyRecord

/-- The rows produced by the `/api/country/<selected_country>` query
(`country_medals`): filter `Country.ilike('%selected_country%')`, ordered
by Year. -/
def country_medals_rows (db : OlympicsDb) (selected_country : String) :
    List AthletesRow :=
  List.insertionSort yearLe
    (db.athletes.filter (fun r => countryILike selected_country r.Country))

/-- The JSON array returned by `country_medals`. -/
def country_medals (db : OlympicsDb) (selected_country : String) :
    List (List (String × JVal)) :=
  (country_medals_rows db selected_country).map tallyRecord

/-- The rows produced by the `/api/medals-tally/years_after_1960` query
(`total_medal_tally_year_after_1960`): filter `Year >= 1960`, ordered by
Year then Medals descending. -/
def total_medal_tally_year_after_1960_rows (db : OlympicsDb) : List AthletesRow :=
  List.insertionSort yearMedalsLe (db.athletes.filter (fun r => 1960 ≤ r.Year))

/-- The dictionary built for each row of `total_medal_tally_year_after_1960`:
capitalized keys, with the country under the key `"Nation"`. -/
def after1960Record (r : AthletesRow) : List (String × JVal) :=
  [("Year", JVal.jint r.Year), ("Nation", JVal.jstr r.Country),
   ("Gold", JVal.jint r.Gold), ("Silver", JVal.jint r.Silver),
   ("Bronze", JVal.jint r.Bronze), ("Medals", JVal.jint r.Medals)]

/-- The JSON array returned by `total_medal_tally_year_after_1960`. -/
def total_medal_tally_year_after_1960 (db : OlympicsDb) :
    List (List (String × JVal)) :=
  (total_medal_tally_year_after_1960_rows db).map after1960Record

/-- The list returned by the `/api/years` query (`get_years`):
`distinct(Athletes.Year)` ordered by Year ascending. -/
def get_years (db : OlympicsDb) : List Int :=
  List.insertionSort (· ≤ ·) (db.athletes.map (fun r => r.Year)).dedup

/-- Modelled from the spec: the transport-layer handling of the
`<int:selected_year>` path parameter of `/api/medals-tally/<int:selected_year>`
is framework code, not in the repository; the spec requires that a path segment
that is not a decimal integer is rejected as a client error before the query
layer runs. The converter accepts a non-empty all-digit segment. -/
def parseIntParam (s : String) : Option Int :=
  if s.data ≠ [] ∧ ∀ c ∈ s.data, c.isDigit then
    some (Int.ofNat (s.data.foldl (fun n c => n * 10 + (c.toNat - '0'.toNat)) 0))
  else none

/-- Modelled from the spec: dispatch of a request to
`/api/medals-tally/<raw>` — the integer converter either rejects the segment
with a 404 client error before `total_medal_tally` runs, or parses it and
invokes `total_medal_tally` with the parsed integer. -/
def medals_tally_route (db : OlympicsDb) (raw : String) :
    Except Nat (List (List (String × JVal))) :=
  match parseIntParam raw with
  | none => Except.error 404
  | some y => Except.ok (total_medal_tally db y)

/-! ### Order properties of the ORDER BY keys -/

instance : IsTotal AthletesRow dumpLe := by
  constructor
  intro a b
  unfold dumpLe
  rcases lt_trichotomy a.Year b.Year with h | h | h
  · exact Or.inl (Or.inl h)
  · rcases le_total a.Country b.Country with hc | hc
    · exact Or.inl (Or.inr ⟨h, hc⟩)
    · exact Or.inr (Or.inr ⟨h.symm, hc⟩)
  · exact Or.inr (Or.inl h)

instance : IsTrans AthletesRow dumpLe := by
  constructor
  intro a b c hab hbc
  unfold dumpLe at *
  rcases hab with h1 | ⟨h1, h1c⟩ <;> rcases hbc with h2 | ⟨h2, h2c⟩
  · exact Or.inl (h1.trans h2)
  · exact Or.inl (h2 ▸ h1)
  · exact Or.inl (h1 ▸ h2)
  · exact Or.inr ⟨h1.trans h2, h1c.trans h2c⟩

instance : IsTotal AthletesRow tallyLe := by
  constructor
  intro a b
  unfold tallyLe
  exact le_total b.Medals a.Medals

instance : IsTrans AthletesRow tallyLe := by
  constructor
  intro a b c hab hbc
  exact le_trans hbc hab

instance : IsTotal AthletesRow yearLe := by
  constructor
  intro a b
  exact le_total a.Year b.Year

instance : IsTrans AthletesRow yearLe := by
  constructor
  intro a b c hab hbc
  exact le_trans hab hbc

instance : IsTotal AthletesRow yearMedalsLe := by
  constructor
  intro a b
  unfold yearMedalsLe
  rcases lt_trichotomy a.Year b.Year with h | h | h
  · exact Or.inl (Or.inl h)
  · rcases le_total b.Medals a.Medals with hm | hm
    · exact Or.inl (Or.inr ⟨h, hm⟩)
    · exact Or.inr (Or.inr ⟨h.symm, hm⟩)
  · exact Or.inr (Or.inl h)

instance : IsTrans AthletesRow yearMedalsLe := by
  constructor
  intro a b c hab hbc
  unfold yearMedalsLe at *
  rcases hab with h1 | ⟨h1, h1m⟩ <;> rcases hbc with h2 | ⟨h2, h2m⟩
  · exact Or.inl (h1.trans h2)
  · exact Or.inl (h2 ▸ h1)
  · exact Or.inl (h1 ▸ h2)
  · exact Or.inr ⟨h1.trans h2, h2m.trans h1m⟩

/-! ### LIKE-pattern lemmas -/

theorem likeMatch_nil (s : List Char) : likeMatch [] s = s.isEmpty := rfl

theorem likeMatch_cons (p : Char) (ps : List Char) (s : List Char) :
    likeMatch (p :: ps) s =
      if p = '%' then s.tails.any (fun t => likeMatch ps t)
      else
        match s with
        | [] => false
        | c :: s' =>
          if p = '_' then likeMatch ps s'
          else (lowerChar p == lowerChar c) && likeMatch ps s' := rfl

theorem likeMatch_pct (s : List Char) : likeMatch ['%'] s = true := by
  induction s with
  | nil => rfl
  | cons c s ih => simp [likeMatch_cons, List.tails_cons] at ih ⊢; exact Or.inr ih

/-- A wildcard-free pattern followed by `%` matches exactly the strings whose
ASCII-lowered form starts with the ASCII-lowered pattern. -/
theorem likeMatch_append_pct (f : List Char) (hf : ∀ c ∈ f, c ≠ '%' ∧ c ≠ '_') :
    ∀ s : List Char,
      likeMatch (f ++ ['%']) s = startsWith (f.map lowerChar) (s.map lowerChar) := by
  induction f with
  | nil =>
    intro s
    simp [likeMatch_pct, startsWith]
  | cons a f ih =>
    intro s
    obtain ⟨ha1, ha2⟩ := hf a (List.mem_cons_self a f)
    have hf' : ∀ c ∈ f, c ≠ '%' ∧ c ≠ '_' := fun c hc => hf c (List.mem_cons_of_mem a hc)
    cases s with
    | nil => simp [likeMatch_cons, startsWith, ha1]
    | cons c s =>
      simp only [List.cons_append, likeMatch_cons, if_neg ha1, if_neg ha2, List.map_cons,
        startsWith, ih hf' s]

/-- For a wildcard-free filter `f`, the `LIKE` pattern `%f%` matches exactly the
strings whose ASCII-lowered form contains the ASCII-lowered `f` as a contiguous
substring. -/
theorem likeMatch_pct_pct (f : List Char) (hf : ∀ c ∈ f, c ≠ '%' ∧ c ≠ '_') (s : List Char) :
    likeMatch ('%' :: f ++ ['%']) s = containsSub (f.map lowerChar) (s.map lowerChar) := by
  have key : ∀ t : List Char,
      likeMatch ('%' :: f ++ ['%']) t
        = t.tails.any (fun u => likeMatch (f ++ ['%']) u) := by
    intro t
    simp [likeMatch_cons]
  induction s with
  | nil =>
    rw [key]
    simp [List.tails, likeMatch_append_pct f hf, containsSub]
  | cons c s ih =>
    rw [key] at ih ⊢
    simp only [List.tails_cons, List.any_cons, likeMatch_append_pct f hf] at ih ⊢
    simp only [List.map_cons, containsSub, ih]

/-- `countryILike` with a wildcard-free filter is case-insensitive substring
matching on the Country value. -/
theorem countryILike_eq_containsSub (f : String) (hf : wildcardFree f) (c : String) :
    countryILike f c = containsSub (f.data.map lowerChar) (c.data.map lowerChar) :=
  likeMatch_pct_pct f.data hf c.data

theorem containsSub_nil (hay : List Char) : containsSub [] hay = true := by
  cases hay <;> simp [containsSub, startsWith]

/-! ### Concrete sample data, used to instantiate the theorems -/

/-- Sample athletes row: USA 1996 (not a host, one medal). -/
def exRowUsa : AthletesRow := ⟨1996, "USA", 0, 500, 25, 200, 1, 0, 0, 1⟩

/-- Sample athletes row: the spec's scenario row Australia 2000 (host, 58 medals). -/
def exRowAus : AthletesRow := ⟨2000, "Australia", 1, 600, 30, 290, 16, 25, 17, 58⟩

/-- Sample athletes row: France 2004. -/
def exRowFra : AthletesRow := ⟨2004, "France", 0, 300, 20, 100, 11, 9, 13, 33⟩

/-- Sample athletes row: Italy 1960 (host). -/
def exRowIta : AthletesRow := ⟨1960, "Italy", 1, 280, 17, 150, 13, 10, 13, 36⟩

/-- A sample store. -/
def exDb : OlympicsDb := ⟨[exRowUsa, exRowAus, exRowFra], [], []⟩

/-- A one-row sample store whose only year is 1960. -/
def exDb1960 : OlympicsDb := ⟨[exRowIta], [], []⟩

/-- A file-system state in which `olympics.db` already exists. -/
def exFsExisting : FsState := ⟨true, exDb, none, none, none⟩

/-- A file-system state with no store yet and all three CSV files readable. -/
def exFsFresh : FsState :=
  ⟨false, ⟨[], [], []⟩, some [⟨2000, "Australia", "Sydney"⟩], some [⟨2000, "Sydney"⟩],
   some [exRowUsa, exRowAus, exRowFra]⟩

/-- The file-system state after a successful ingestion run from `exFsFresh`. -/
def exFsLoaded : FsState :=
  ⟨true, ⟨[exRowUsa, exRowAus, exRowFra], [⟨2000, "Australia", "Sydney"⟩], [⟨2000, "Sydney"⟩]⟩,
   some [⟨2000, "Australia", "Sydney"⟩], some [⟨2000, "Sydney"⟩],
   some [exRowUsa, exRowAus, exRowFra]⟩

/-- The empty filter matches every Country value. -/
theorem countryILike_empty (c : String) : countryILike "" c = true := by
  have h := countryILike_eq_containsSub "" (by intro x hx; simp at hx) c
  rw [h]
  simpa using containsSub_nil (c.data.map lowerChar)

/-! ### Claim theorems -/

/-- C1: whenever the backing store file already exists, `create_db_from_csv`
returns immediately and the state — in particular the contents of all three
tables of the store — is unchanged; no validation of the existing contents is
performed. -/
theorem claim_C1 (s : FsState) (h : s.dbExists = true) :
    create_db_from_csv s = Except.ok s := by
  unfold create_db_from_csv
  rw [h]
  rfl

theorem claim_C1_witness :
    exFsExisting.dbExists = true ∧ create_db_from_csv exFsExisting = Except.ok exFsExisting :=
  ⟨rfl, claim_C1 exFsExisting rfl⟩

theorem mem_dumpFiltered_base {db : OlympicsDb} {cn : Option String} {r : AthletesRow}
    (h : r ∈ dumpFiltered db cn) : r ∈ dumpBase db := by
  cases cn with
  | none => exact h
  | some f => exact List.mem_of_mem_filter h

/-- C2: every record returned by `entire_data_dump` (with or without a country
filter) has Medals > 0, and the result is sorted by Year ascending with ties
broken by Country ascending. -/
theorem claim_C2 (db : OlympicsDb) (cn : Option String) :
    (∀ r ∈ entire_data_dump_rows db cn, 0 < r.Medals) ∧
    (entire_data_dump_rows db cn).Pairwise
      (fun a b => a.Year < b.Year ∨ (a.Year = b.Year ∧ a.Country ≤ b.Country)) := by
  constructor
  · intro r hr
    unfold entire_data_dump_rows at hr
    rw [List.mem_insertionSort] at hr
    have hb : r ∈ dumpBase db := mem_dumpFiltered_base hr
    have := (List.mem_filter.mp hb).2
    simpa using this
  · have h := List.sorted_insertionSort dumpLe (dumpFiltered db cn)
    exact h.imp (fun hab => hab)

theorem claim_C2_witness :
    exRowAus ∈ entire_data_dump_rows exDb none ∧ 0 < exRowAus.Medals :=
  ⟨by decide, (claim_C2 exDb none).1 exRowAus (by decide)⟩

/-- C4: with any country filter, every record returned by `entire_data_dump`
is also returned when the filter is omitted (the unfiltered result is a
superset). -/
theorem claim_C4 (db : OlympicsDb) (f : String) (r : AthletesRow)
    (h : r ∈ entire_data_dump_rows db (some f)) :
    r ∈ entire_data_dump_rows db none := by
  unfold entire_data_dump_rows at h ⊢
  rw [List.mem_insertionSort] at h ⊢
  exact mem_dumpFiltered_base h

theorem claim_C4_witness :
    exRowFra ∈ entire_data_dump_rows exDb (some "fra") ∧
    exRowFra ∈ entire_data_dump_rows exDb none :=
  ⟨by decide, claim_C4 exDb "fra" exRowFra (by decide)⟩

/-- C10: calling `entire_data_dump` with the empty string as the country
filter returns exactly the same ordered sequence of records as calling it
with the filter omitted: the empty filter matches every Country value. -/
theorem claim_C10 (db : OlympicsDb) :
    entire_data_dump db (some "") = entire_data_dump db none := by
  simp only [entire_data_dump, entire_data_dump_rows, dumpFiltered]
  rw [List.filter_eq_self.mpr (fun r _ => countryILike_empty r.Country)]

/-- C3 counterexample: the claim "a record is included by the country-filtering
operations iff the lowercase filter occurs as a substring of the lowercase
Country field" is false for the filter `"_"`: `ilike` treats `_` as a
single-character wildcard, so the USA row is returned although `"_"` is not a
substring of `"usa"`. -/
theorem claim_C3_counterexample :
    ¬ (exRowUsa ∈ country_medals_rows exDb "_" ↔
        containsSub ("_".data.map lowerChar) (exRowUsa.Country.data.map lowerChar) = true) := by
  decide

/-- C3 (amended): the country-filtering operations (`country_medals` and
`entire_data_dump` with a filter) match the Country field against the SQL
`LIKE` pattern `%f%`, in which `%` and `_` are wildcards; for every filter
string `f` free of those wildcard characters, a record is included iff the
ASCII-lowercased `f` occurs as a contiguous substring of the ASCII-lowercased
Country field (not anchored, not whole-word). -/
theorem claim_C3 (db : OlympicsDb) (f : String) (r : AthletesRow)
    (hf : wildcardFree f) :
    (r ∈ country_medals_rows db f ↔
      r ∈ db.athletes ∧
        containsSub (f.data.map lowerChar) (r.Country.data.map lowerChar) = true) ∧
    (r ∈ entire_data_dump_rows db (some f) ↔
      r ∈ db.athletes ∧ 0 < r.Medals ∧
        containsSub (f.data.map lowerChar) (r.Country.data.map lowerChar) = true) := by
  have hlike : ∀ c : String,
      countryILike f c = containsSub (f.data.map lowerChar) (c.data.map lowerChar) :=
    countryILike_eq_containsSub f hf
  constructor
  · unfold country_medals_rows
    rw [List.mem_insertionSort, List.mem_filter, hlike]
  · unfold entire_data_dump_rows dumpFiltered dumpBase
    rw [List.mem_insertionSort, List.mem_filter, List.mem_filter, hlike]
    constructor
    · rintro ⟨⟨hmem, hmed⟩, hsub⟩
      exact ⟨hmem, by simpa using hmed, hsub⟩
    · rintro ⟨hmem, hmed, hsub⟩
      exact ⟨⟨hmem, by simpa using hmed⟩, hsub⟩

theorem claim_C3_witness :
    wildcardFree "fra" ∧
    (exRowFra ∈ country_medals_rows exDb "fra" ↔
      exRowFra ∈ exDb.athletes ∧
        containsSub ("fra".data.map lowerChar) (exRowFra.Country.data.map lowerChar) = true) :=
  ⟨by decide, (claim_C3 exDb "fra" exRowFra (by decide)).1⟩

/-- C5: `total_medal_tally` returns exactly the rows whose Year equals the
selected year (as a multiset), sorted by Medals descending, and when no row
matches it returns the empty sequence rather than an error. -/
theorem claim_C5 (db : OlympicsDb) (y : Int) :
    (total_medal_tally_rows db y).Perm (db.athletes.filter (fun r => r.Year == y)) ∧
    (total_medal_tally_rows db y).Pairwise (fun a b => b.Medals ≤ a.Medals) ∧
    ((∀ r ∈ db.athletes, r.Year ≠ y) → total_medal_tally db y = []) := by
  refine ⟨List.perm_insertionSort tallyLe _, ?_, ?_⟩
  · have h := List.sorted_insertionSort tallyLe (db.athletes.filter (fun r => r.Year == y))
    exact h.imp (fun hab => hab)
  · intro hno
    unfold total_medal_tally total_medal_tally_rows
    rw [List.filter_eq_nil_iff.mpr (fun r hr => by simpa using hno r hr)]
    rfl

theorem claim_C5_witness :
    (∀ r ∈ exDb.athletes, r.Year ≠ (1900 : Int)) ∧ total_medal_tally exDb 1900 = [] :=
  ⟨by decide, (claim_C5 exDb 1900).2.2 (by decide)⟩

/-- C6: every record returned by `host_countries` has Host == 1, and the
result is sorted by Year ascending. -/
theorem claim_C6 (db : OlympicsDb) :
    (∀ r ∈ host_countries_rows db, r.Host = 1) ∧
    (host_countries_rows db).Pairwise (fun a b => a.Year ≤ b.Year) := by
  constructor
  · intro r hr
    unfold host_countries_rows at hr
    rw [List.mem_insertionSort] at hr
    have := (List.mem_filter.mp hr).2
    simpa using this
  · have h := List.sorted_insertionSort yearLe (db.athletes.filter (fun r => r.Host == 1))
    exact h.imp (fun hab => hab)

theorem claim_C6_witness :
    exRowAus ∈ host_countries_rows exDb ∧ exRowAus.Host = 1 :=
  ⟨by decide, (claim_C6 exDb).1 exRowAus (by decide)⟩

/-- C7 counterexample: the claim that the records of
`total_medal_tally_year_after_1960` carry the field names
Year, Country, Gold, Silver, Bronze, Medals is false: the country value is
emitted under the key `"Nation"`, not `"Country"`. -/
theorem claim_C7_counterexample :
    (total_medal_tally_year_after_1960 exDb1960).map (fun rec => rec.map Prod.fst)
      = [["Year", "Nation", "Gold", "Silver", "Bronze", "Medals"]] ∧
    ["Year", "Nation", "Gold", "Silver", "Bronze", "Medals"]
      ≠ ["Year", "Country", "Gold", "Silver", "Bronze", "Medals"] := by
  constructor
  · rfl
  · intro h
    simp at h

/-- C7 (amended): `total_medal_tally_year_after_1960` returns exactly the rows
with Year >= 1960 (as a multiset), sorted by Year ascending then Medals
descending, and each returned record carries the capitalized field names
Year, Nation, Gold, Silver, Bronze, Medals — a response shape distinct from
the other operations (the country value appears under `"Nation"`, not
`"Country"`). -/
theorem claim_C7 (db : OlympicsDb) :
    (total_medal_tally_year_after_1960_rows db).Perm
      (db.athletes.filter (fun r => 1960 ≤ r.Year)) ∧
    (total_medal_tally_year_after_1960_rows db).Pairwise
      (fun a b => a.Year < b.Year ∨ (a.Year = b.Year ∧ b.Medals ≤ a.Medals)) ∧
    (∀ rec ∈ total_medal_tally_year_after_1960 db,
      rec.map Prod.fst = ["Year", "Nation", "Gold", "Silver", "Bronze", "Medals"]) := by
  refine ⟨List.perm_insertionSort yearMedalsLe _, ?_, ?_⟩
  · have h := List.sorted_insertionSort yearMedalsLe
      (db.athletes.filter (fun r => 1960 ≤ r.Year))
    exact h.imp (fun hab => hab)
  · intro rec hrec
    unfold total_medal_tally_year_after_1960 at hrec
    obtain ⟨r, _, hr⟩ := List.mem_map.mp hrec
    rw [← hr]
    rfl

theorem claim_C7_witness :
    after1960Record exRowIta ∈ total_medal_tally_year_after_1960 exDb1960 ∧
    (after1960Record exRowIta).map Prod.fst
      = ["Year", "Nation", "Gold", "Silver", "Bronze", "Medals"] :=
  ⟨by decide, (claim_C7 exDb1960).2.2 (after1960Record exRowIta) (by decide)⟩

/-- C8: a successful ingestion run from a state without a store materializes
the athlete CSV rows, and `get_years` on the resulting store returns exactly
the distinct Year values present across the ingested athlete rows, with no
duplicates, sorted ascending. -/
theorem claim_C8 (s s' : FsState) (ath : List AthletesRow)
    (hdb : s.dbExists = false) (hath : s.summer_athlete_medals_csv = some ath)
    (hok : create_db_from_csv s = Except.ok s') :
    (get_years s'.db).Nodup ∧
    (get_years s'.db).Pairwise (fun a b => a ≤ b) ∧
    (∀ y : Int, y ∈ get_years s'.db ↔ ∃ r ∈ ath, r.Year = y) := by
  have hathletes : s'.db.athletes = ath := by
    unfold create_db_from_csv at hok
    rw [hdb] at hok
    simp only [Bool.false_eq_true, if_false] at hok
    rcases hhc : s.host_country_csv with _ | hc <;> rw [hhc] at hok
    · simp at hok
    rcases hsoh : s.summer_olympics_host_csv with _ | soh <;> rw [hsoh] at hok
    · simp at hok
    rw [hath] at hok
    simp only [Except.ok.injEq] at hok
    rw [← hok]
  refine ⟨?_, ?_, ?_⟩
  · exact (List.perm_insertionSort _ _).nodup_iff.mpr
      (List.nodup_dedup (s'.db.athletes.map (fun r => r.Year)))
  · have h := List.sorted_insertionSort (α := Int) (· ≤ ·)
      (s'.db.athletes.map (fun r => r.Year)).dedup
    exact h.imp (fun hab => hab)
  · intro y
    unfold get_years
    rw [List.mem_insertionSort, List.mem_dedup, List.mem_map, hathletes]

theorem claim_C8_witness :
    exFsFresh.dbExists = false ∧
    exFsFresh.summer_athlete_medals_csv = some [exRowUsa, exRowAus, exRowFra] ∧
    create_db_from_csv exFsFresh = Except.ok exFsLoaded ∧
    (∀ y : Int, y ∈ get_years exFsLoaded.db ↔ ∃ r ∈ [exRowUsa, exRowAus, exRowFra], r.Year = y) :=
  ⟨rfl, rfl, rfl,
    (claim_C8 exFsFresh exFsLoaded [exRowUsa, exRowAus, exRowFra] rfl rfl rfl).2.2⟩

/-- C9: a request to the medals-tally endpoint whose year path segment is not
a valid integer is rejected with the 404 client error (a 4xx, never a 500)
before `total_medal_tally` runs; the query function is only ever invoked with
the successfully parsed integer. -/
theorem claim_C9 (db : OlympicsDb) (raw : String) :
    (parseIntParam raw = none → medals_tally_route db raw = Except.error 404) ∧
    (∀ y : Int, parseIntParam raw = some y →
      medals_tally_route db raw = Except.ok (total_medal_tally db y)) ∧
    (∀ n : Nat, medals_tally_route db raw = Except.error n → 400 ≤ n ∧ n < 500) := by
  refine ⟨?_, ?_, ?_⟩
  · intro h
    unfold medals_tally_route
    rw [h]
  · intro y h
    unfold medals_tally_route
    rw [h]
  · intro n h
    unfold medals_tally_route at h
    cases hp : parseIntParam raw <;> rw [hp] at h <;> simp at h
    omega

theorem claim_C9_witness :
    parseIntParam "200four" = none ∧
    medals_tally_route exDb "200four" = Except.error 404 ∧
    parseIntParam "2004" = some 2004 ∧
    medals_tally_route exDb "2004" = Except.ok (total_medal_tally exDb 2004) :=
  ⟨by decide, (claim_C9 exDb "200four").1 (by decide), by decide,
    (claim_C9 exDb "2004").2.1 2004 (by decide)⟩

end Olympics
